import Mathlib

/- Verification development for the SWE-bench validation/evaluation harness
   (swebench/harness: run_validation.py, run_evaluation.py, reporting.py,
   push_images.py).  The Python sources are embedded shallowly: pure logic
   becomes Lean functions; the per-instance runner is modelled as a function
   from an environment (the outcomes of the external container/file-system
   calls) to the trace of operations it performs plus its returned value. -/

namespace SWEBench

/- ----------------------------------------------------------------- -/
/- Generic string helpers (the Lean built-in String.lt / toLower /
   replace do not reduce in the kernel, so we define list-based
   equivalents used by the embedding). -/

/-- Lexicographic strict order on character lists. -/
def lexLt : List Char → List Char → Bool
  | [], [] => false
  | [], _ :: _ => true
  | _ :: _, [] => false
  | a :: as, b :: bs => if a < b then true else if b < a then false else lexLt as bs

/-- Insert a string into a sorted list (insertion step of sorting). -/
def insertStr (x : String) : List String → List String
  | [] => [x]
  | y :: ys => if lexLt x.data y.data then x :: y :: ys else y :: insertStr x ys

/-- Sort a list of strings lexicographically (models Python sorted). -/
def sortStr : List String → List String
  | [] => []
  | x :: xs => insertStr x (sortStr xs)

/-- Lower-case a string character-wise (models Python str.lower). -/
def lowerStr (s : String) : String := ⟨s.data.map Char.toLower⟩

/-- Replace every occurrence of a double underscore by underscore-s-underscore,
left to right (models the Python replace of a double underscore used for
Docker Hub image names). -/
def replacePairs : List Char → List Char
  | '_' :: '_' :: rest => '_' :: 's' :: '_' :: replacePairs rest
  | c :: rest => c :: replacePairs rest
  | [] => []

/-- String version of replacePairs. -/
def replaceUnderscores (s : String) : String := ⟨replacePairs s.data⟩

/-- Does the first list occur at the head of the second list? -/
def leadMatch : List Char → List Char → Bool
  | [], _ => true
  | _ :: _, [] => false
  | a :: as, b :: bs => a == b && leadMatch as bs

/-- Does the first list occur anywhere inside the second list? -/
def occursIn (needle : List Char) : List Char → Bool
  | [] => needle.isEmpty
  | c :: rest => leadMatch needle (c :: rest) || occursIn needle rest

/-- Substring test on strings (models the Python in operator on str). -/
def strOccursIn (needle hay : String) : Bool := occursIn needle.data hay.data

/-- Append a string to a list if it is not already there (set insertion). -/
def insertUnique (x : String) (l : List String) : List String :=
  if l.contains x then l else l ++ [x]

/- ----------------------------------------------------------------- -/
/- Data model. -/

/-- Modelled from the spec: TestStatus from swebench.harness.constants (not
under src/); the log-parser mapping assigns each test one of the statuses
PASS, FAIL, ERROR, SKIP. -/
inductive TestStatus where
  | PASSED : TestStatus
  | FAILED : TestStatus
  | ERROR : TestStatus
  | SKIPPED : TestStatus
deriving DecidableEq, Repr

/-- A prediction record: instance id, patch text (None models Python None),
and the model name (the submitter identifier). -/
structure Prediction where
  instance_id : String
  model_patch : Option String
  model_name_or_path : String
deriving DecidableEq, Repr

/-- One dataset instance as used by reporting and dataset filtering; the
instance image key stands for make_test_spec(instance).instance_image_key
(the TestSpec builder is external per the spec, so the key is carried as
a field). -/
structure Instance where
  instance_id : String
  instance_image_key : String
deriving DecidableEq, Repr

/-- The per-instance grading record built by get_validation_report
(run_validation.py).  The Python dict holds the four boolean keys always;
the key named none appears only for a null patch, and tests_status only
when requested, so those two are Option-valued here.  tests_status is the
pair (PASS list, FAIL list). -/
structure ValidationRecord where
  patch_is_None : Bool
  patch_exists : Bool
  patch_successfully_applied : Bool
  resolved : Bool
  none_key : Option Bool
  tests_status : Option (List String × List String)
deriving DecidableEq, Repr

/-- The initial grading record (run_validation.py lines 78 to 83). -/
def initialRecord : ValidationRecord :=
  { patch_is_None := false
    patch_exists := false
    patch_successfully_applied := false
    resolved := false
    none_key := Option.none
    tests_status := Option.none }

/-- get_validation_report (run_validation.py lines 56 to 109).  The call to
get_logs_eval (grading.py, not under src/) is replaced by its result: the
parsed test-name-to-status mapping eval_sm and the found flag. -/
def get_validation_report (prediction : Prediction)
    (eval_sm : List (String × TestStatus)) (found : Bool)
    (include_tests_status : Bool) : String × ValidationRecord :=
  let instance_id := prediction.instance_id
  match prediction.model_patch with
  | Option.none => (instance_id, { initialRecord with none_key := some true })
  | some _ =>
    let r1 := { initialRecord with patch_exists := true }
    if found then
      let r2 := { r1 with patch_successfully_applied := true }
      let passList := (eval_sm.filter (fun kv => kv.2 == TestStatus.PASSED)).map Prod.fst
      let failList := (eval_sm.filter (fun kv => kv.2 == TestStatus.FAILED)).map Prod.fst
      let r3 := if failList.length = 0 ∧ 0 < passList.length then
        { r2 with resolved := true } else r2
      let r4 := if include_tests_status then
        { r3 with tests_status := some (passList, failList) } else r3
      (instance_id, r4)
    else (instance_id, r1)

/- ----------------------------------------------------------------- -/
/- The per-instance runner, modelled as a trace of operations. -/

/-- One externally visible operation performed by run_instance.  Container
operations and the logger operations get their own constructors so the
claims about them can count occurrences in the trace. -/
inductive Op where
  | mkdirLogDir : Op
  | symlinkAttempt : Op
  | setupLogger : Op
  | buildContainer : Op
  | startContainer : Op
  | writeFile (path content : String) : Op
  | copyToContainer (dst : String) : Op
  | execRun (cmd : String) : Op
  | execRunTimeout (cmd : String) : Op
  | writeReport (report : String × ValidationRecord) : Op
  | writeReportRaw (text : String) : Op
  | cleanupContainer : Op
  | pushImageOp (name : String) : Op
  | removeImage (name : String) : Op
  | closeLogger : Op
deriving DecidableEq, Repr

/-- Container operations: everything that talks to the Docker daemon
(build, start, exec, copy, cleanup, image push and image removal). -/
def isContainerOp : Op → Bool
  | Op.buildContainer => true
  | Op.startContainer => true
  | Op.copyToContainer _ => true
  | Op.execRun _ => true
  | Op.execRunTimeout _ => true
  | Op.cleanupContainer => true
  | Op.pushImageOp _ => true
  | Op.removeImage _ => true
  | _ => false

/-- The slice of a TestSpec the runner uses (test_spec.py is external; the
three fields consumed by run_instance are carried directly). -/
structure TestSpec where
  instance_id : String
  instance_image_key : String
  eval_script : String
deriving DecidableEq, Repr

/-- The environment of one run_instance call: the outcomes of every
external call it makes (file system, Docker, log parsing), so that the
runner itself is a pure function of this record. -/
structure RunEnv where
  link_exists : Bool
  report_exists : Bool
  existing_report : String × ValidationRecord
  existing_report_text : String
  build_fails : Bool
  generic_fail : Bool
  git_apply_exit : Nat
  git_apply_output : String
  patch_exit : Nat
  patch_output : String
  test_output : String
  timed_out : Bool
  eval_sm : List (String × TestStatus)
  found : Bool
  pred_report_text : String
deriving Repr

/-- Modelled from the spec: APPLY_PATCH_FAIL from swebench.harness.constants
(not under src/), the fixed prefix of the patch-failure message. -/
def APPLY_PATCH_FAIL : String := ">>>>> Patch Apply Failed"

/-- The extra line appended to the test-output file on timeout
(run_validation.py line 223). -/
def timeoutFileSuffix (timeout : Nat) : String :=
  "\n\nTimeout error: " ++ toString timeout ++ " seconds exceeded."

/-- The EvaluationError message raised on timeout (run_validation.py
line 226). -/
def timeoutErrorMessage (timeout : Nat) : String :=
  "Test timed out after " ++ toString timeout ++ " seconds."

/-- The EvaluationError message raised when patch application fails,
built from APPLY_PATCH_FAIL and one captured output
(run_validation.py line 194, run_evaluation.py line 126). -/
def applyFailMessage (output : String) : String :=
  APPLY_PATCH_FAIL ++ ":\n" ++ output

/-- The strict apply command of the validation runner
(run_validation.py line 177). -/
def gitApplyCmdV : String := "git apply --allow-empty -v /tmp/patch.diff"

/-- The fallback apply command of the validation runner
(run_validation.py line 185). -/
def patchFuzzCmd : String := "patch --batch --fuzz=5 -p1 -i /tmp/patch.diff"

/-- The strict apply command of the evaluation runner
(run_evaluation.py line 118). -/
def gitApplyCmdE : String := "git apply -v /tmp/patch.diff"

/-- Result of one validation run_instance call: the operation trace, the
returned (instance id, report) pair (Python returns None on the error
paths), and the message of the caught error when one was raised. -/
structure RunResult where
  ops : List Op
  ret : Option (String × (String × ValidationRecord))
  error : Option String
deriving Repr

/-- Result of one evaluation run_instance call; the report there comes
from the external get_pred_report so it is carried as opaque text, and
errors are re-raised rather than swallowed. -/
structure RunResultE where
  ops : List Op
  ret : Option (String × String)
  raised : Option String
deriving Repr

namespace RunValidation

/-- The patch-application phase of the validation runner
(run_validation.py lines 167 to 200): write and copy the patch, strict
git apply first, the fuzzy patch command as fallback, failure only when
both exit non-zero, with the message built from the second output. -/
def apply_phase (pred : Prediction) (env : RunEnv) : List Op × Option String :=
  let a0 := [Op.writeFile "patch.diff" (pred.model_patch.getD ""),
    Op.copyToContainer "/tmp/patch.diff",
    Op.execRun gitApplyCmdV]
  if env.git_apply_exit = 0 then (a0, Option.none)
  else
    let a1 := a0 ++ [Op.execRun patchFuzzCmd]
    if env.patch_exit = 0 then (a1, Option.none)
    else (a1, some (applyFailMessage env.patch_output))

/-- The post-apply phase of the validation runner (run_validation.py
lines 202 to 256): diff before, run the eval script under timeout, write
the test output (with the timeout line appended and an EvaluationError
raised when it timed out), diff after, grade, write report.json. -/
def eval_phase (test_spec : TestSpec) (pred : Prediction) (timeout : Nat)
    (env : RunEnv) :
    List Op × Option (String × (String × ValidationRecord)) × Option String :=
  let preOps := [Op.execRun "git diff",
    Op.writeFile "eval.sh" test_spec.eval_script,
    Op.copyToContainer "/eval.sh",
    Op.execRunTimeout "/bin/bash /eval.sh"]
  if env.timed_out then
    (preOps ++ [Op.writeFile "test_output.txt"
        (env.test_output ++ timeoutFileSuffix timeout)],
     Option.none, some (timeoutErrorMessage timeout))
  else
    let report := get_validation_report pred env.eval_sm env.found true
    (preOps ++ [Op.writeFile "test_output.txt" env.test_output,
        Op.execRun "git diff", Op.writeReport report],
     some (test_spec.instance_id, report), Option.none)

/-- run_instance of run_validation.py (lines 112 to 286): directory and
symlink setup, the report.json early return, then the container lifecycle
inside try/except/finally with every error caught and the finally block
doing cleanup_container, the optional image push and removal, and
close_logger. -/
def run_instance (test_spec : TestSpec) (pred : Prediction) (rm_image : Bool)
    (push_flag : Bool) (timeout : Nat) (env : RunEnv) : RunResult :=
  let pre := [Op.mkdirLogDir] ++ (if env.link_exists then [] else [Op.symlinkAttempt])
  if env.report_exists then
    { ops := pre, ret := some (test_spec.instance_id, env.existing_report),
      error := Option.none }
  else
    let finallyOps :=
      [Op.cleanupContainer]
      ++ (if push_flag then [Op.pushImageOp test_spec.instance_image_key] else [])
      ++ (if rm_image then [Op.removeImage test_spec.instance_image_key] else [])
      ++ [Op.closeLogger]
    let body :
        List Op × Option (String × (String × ValidationRecord)) × Option String :=
      if env.build_fails then
        ([Op.buildContainer], Option.none, some "BuildImageError")
      else if env.generic_fail then
        ([Op.buildContainer, Op.startContainer], Option.none,
          some "generic exception")
      else
        let ap := apply_phase pred env
        match ap.2 with
        | some e =>
          ([Op.buildContainer, Op.startContainer] ++ ap.1, Option.none, some e)
        | Option.none =>
          let ev := eval_phase test_spec pred timeout env
          ([Op.buildContainer, Op.startContainer] ++ ap.1 ++ ev.1,
            ev.2.1, ev.2.2)
    { ops := pre ++ [Op.setupLogger] ++ body.1 ++ finallyOps,
      ret := body.2.1, error := body.2.2 }

end RunValidation

namespace RunEvaluation

/-- run_instance of run_evaluation.py (lines 54 to 184): same setup and
report.json early return; a single strict git apply with no fallback; the
eval script run and graded by the external get_pred_report (its parsed
report is carried as opaque text in the environment); errors re-raised as
EvaluationError; the finally block does cleanup_container, the optional
image removal, and close_logger. -/
def run_instance (test_spec : TestSpec) (pred : Prediction) (rm_image : Bool)
    (env : RunEnv) : RunResultE :=
  let pre := [Op.mkdirLogDir] ++ (if env.link_exists then [] else [Op.symlinkAttempt])
  if env.report_exists then
    { ops := pre, ret := some (test_spec.instance_id, env.existing_report_text),
      raised := Option.none }
  else
    let finallyOps :=
      [Op.cleanupContainer]
      ++ (if rm_image then [Op.removeImage test_spec.instance_image_key] else [])
      ++ [Op.closeLogger]
    let body : List Op × Option (String × String) × Option String :=
      if env.build_fails then
        ([Op.buildContainer], Option.none, some "BuildImageError")
      else
        match pred.model_patch with
        | Option.none =>
          ([Op.buildContainer, Op.startContainer], Option.none,
            some "TypeError: write argument must be str")
        | some patch =>
          let a0 := [Op.buildContainer, Op.startContainer,
            Op.writeFile "patch.diff" patch,
            Op.copyToContainer "/tmp/patch.diff",
            Op.execRun gitApplyCmdE]
          if env.git_apply_exit ≠ 0 then
            (a0, Option.none, some (applyFailMessage env.git_apply_output))
          else
            (a0 ++ [Op.execRun "git diff",
              Op.execRunTimeout "/bin/bash /eval.sh",
              Op.writeFile "test_output.txt" env.test_output,
              Op.execRun "git diff",
              Op.writeReportRaw env.pred_report_text],
             some (test_spec.instance_id, env.pred_report_text), Option.none)
    { ops := pre ++ [Op.setupLogger] ++ body.1 ++ finallyOps,
      ret := body.2.1, raised := body.2.2 }

end RunEvaluation

/- ----------------------------------------------------------------- -/
/- Dataset filtering (idempotent resumption). -/

/-- get_dataset_from_preds of run_validation.py (lines 415 to 483): checks
that the requested instance ids and the prediction ids are in the dataset,
optionally filters to the requested ids, then removes instances whose
report.json already exists (the file system is the oracle
report_file_exists, keyed by instance id since run id and model are fixed
within one call). -/
def get_dataset_from_preds (dataset : List Instance) (instance_ids : List String)
    (predictions : List (String × Prediction))
    (report_file_exists : String → Bool) (exclude_completed : Bool) :
    Except String (List Instance) :=
  let dataset_ids := dataset.map Instance.instance_id
  if !instance_ids.isEmpty && instance_ids.any (fun i => !(dataset_ids.contains i)) then
    Except.error "Some instance IDs not found in dataset!"
  else
    let prediction_ids := predictions.map Prod.fst
    if prediction_ids.any (fun i => !(dataset_ids.contains i)) then
      Except.error "Some prediction IDs not found in dataset!"
    else
      let dataset1 := if !instance_ids.isEmpty then
        dataset.filter (fun i => instance_ids.contains i.instance_id) else dataset
      let completed_ids := (dataset1.filter (fun i =>
        prediction_ids.contains i.instance_id && report_file_exists i.instance_id)).map
          Instance.instance_id
      if !completed_ids.isEmpty && exclude_completed then
        Except.ok (dataset1.filter (fun i => !(completed_ids.contains i.instance_id)))
      else Except.ok dataset1

/- ----------------------------------------------------------------- -/
/- Report aggregation (reporting.py). -/

/-- A JSON value of the run report: either a count or a list of names. -/
inductive JVal where
  | num (n : Nat) : JVal
  | arr (xs : List String) : JVal
deriving DecidableEq, Repr

/-- The live Docker inventory passed to make_run_report when a client is
supplied: local image tags and container names. -/
structure ClientState where
  images : List String
  container_names : List String

/-- The mutable bucket sets of make_run_report. -/
structure Buckets where
  completed : List String
  resolved : List String
  unresolved : List String
  error_ids : List String
  incomplete : List String
  empty_patch : List String
deriving DecidableEq, Repr

/-- One iteration of the dataset loop of make_run_report (reporting.py
lines 48 to 76): no prediction means incomplete; an empty or null patch
means empty_patch; otherwise the report file decides completed plus
resolved or unresolved, and a missing report file means error.  The file
system is the oracle report_state: none when the report file is missing,
some r when it exists with resolved flag r. -/
def classifyInstance (predictions : List (String × Prediction))
    (report_state : String → Option Bool) (b : Buckets) (inst : Instance) :
    Buckets :=
  let iid := inst.instance_id
  match predictions.lookup iid with
  | Option.none => { b with incomplete := insertUnique iid b.incomplete }
  | some prediction =>
    if prediction.model_patch = some "" ∨ prediction.model_patch = Option.none then
      { b with empty_patch := insertUnique iid b.empty_patch }
    else
      match report_state iid with
      | some r =>
        let b1 := { b with completed := insertUnique iid b.completed }
        if r then { b1 with resolved := insertUnique iid b1.resolved }
        else { b1 with unresolved := insertUnique iid b1.unresolved }
      | Option.none => { b with error_ids := insertUnique iid b.error_ids }

/-- make_run_report of reporting.py (lines 17 to 139), producing the JSON
report dict as an association list.  When a client is supplied the
unremoved images and unstopped containers are computed (lines 78 to 89),
but the three leak keys are added to the dict only under the
condition (if not client) of line 123, exactly as in the source. -/
def make_run_report (predictions : List (String × Prediction))
    (full_dataset : List Instance) (run_id : String)
    (report_state : String → Option Bool) (client : Option ClientState) :
    List (String × JVal) :=
  let b := full_dataset.foldl (classifyInstance predictions report_state)
    ⟨[], [], [], [], [], []⟩
  let unremoved_images := match client with
    | some c => (full_dataset.filter
        (fun i => c.images.contains i.instance_image_key)).map
          Instance.instance_image_key
    | Option.none => []
  let unstopped_containers := match client with
    | some c => c.container_names.filter (fun n => strOccursIn run_id n)
    | Option.none => []
  let base := [
    ("total_instances", JVal.num full_dataset.length),
    ("submitted_instances", JVal.num predictions.length),
    ("completed_instances", JVal.num b.completed.length),
    ("resolved_instances", JVal.num b.resolved.length),
    ("unresolved_instances", JVal.num b.unresolved.length),
    ("empty_patch_instances", JVal.num b.empty_patch.length),
    ("error_instances", JVal.num b.error_ids.length),
    ("completed_ids", JVal.arr (sortStr b.completed)),
    ("incomplete_ids", JVal.arr (sortStr b.incomplete)),
    ("empty_patch_ids", JVal.arr (sortStr b.empty_patch)),
    ("submitted_ids", JVal.arr (sortStr (predictions.map Prod.fst))),
    ("resolved_ids", JVal.arr (sortStr b.resolved)),
    ("unresolved_ids", JVal.arr (sortStr b.unresolved)),
    ("error_ids", JVal.arr (sortStr b.error_ids)),
    ("schema_version", JVal.num 2)]
  let extra := match client with
    | Option.none => [
        ("unstopped_instances", JVal.num unstopped_containers.length),
        ("unstopped_containers", JVal.arr (sortStr unstopped_containers)),
        ("unremoved_images", JVal.arr (sortStr unremoved_images))]
    | some _ => []
  base ++ extra

/- ----------------------------------------------------------------- -/
/- Image pushing (push_images.py). -/

/-- The local instance image name built by push_images.py
(lines 22 and 45). -/
def image_name_for (instance_id instance_image_tag : String) : String :=
  "sweb.eval.x86_64." ++ lowerStr instance_id ++ ":" ++ instance_image_tag

/-- The namespaced Docker Hub name (push_images.py line 46). -/
def namespaced_name (ns instance_id instance_image_tag : String) : String :=
  replaceUnderscores (ns ++ "/" ++ image_name_for instance_id instance_image_tag)

/-- The local Docker image store, as the list of image names present. -/
structure DockerState where
  images : List String
deriving DecidableEq, Repr

/-- Remove one image name from the local store (client.images.remove). -/
def removeImageName (name : String) (st : DockerState) : DockerState :=
  { images := st.images.filter (fun i => i != name) }

/-- push_image of push_images.py (lines 31 to 61): get the local image
(raising when absent), tag the namespaced copy, stream the push (raising
on an error line, modelled by the oracle pushOk), then remove both the
namespaced copy and the original from the local store.  The result is the
resulting local store and whether the call returned without raising. -/
def push_image (pushOk : String → Bool) (st : DockerState)
    (instance_id ns tag : String) : DockerState × Bool :=
  let image_name := image_name_for instance_id tag
  let new_image_name := namespaced_name ns instance_id tag
  if !(st.images.contains image_name) then (st, false)
  else
    let st1 : DockerState := { images := st.images ++ [new_image_name] }
    if !(pushOk new_image_name) then (st1, false)
    else (removeImageName image_name (removeImageName new_image_name st1), true)

/-- Modelled from the spec: run_threadpool (swebench.harness.utils, not
under src/) runs one payload batch with bounded concurrency and returns
(successful payloads, failed payloads).  The per-payload outcome is the
oracle ok.  The payload triple (instance, namespace, tag) of
push_images.py is reduced to the instance, matching the projection
payload[0] applied to failed payloads at line 118. -/
def run_threadpool {α : Type} (ok : α → Bool) (payloads : List α) :
    List α × List α :=
  (payloads.filter ok, payloads.filter (fun p => !(ok p)))

/-- The retry loop of push_images.py main (lines 97 to 132), with fuel
bounding how many rounds we observe: while the current batch is nonempty,
push it, extend the cumulative successes, and continue with exactly the
failed payloads.  ok is indexed by the round number so outcomes may vary
between rounds.  Returns (cumulative successes, current batch when
observation stopped, number of rounds executed); the loop itself exits
only when the batch is empty. -/
def push_loop {α : Type} (ok : Nat → α → Bool) :
    Nat → Nat → List α → List α → (List α × List α × Nat)
  | 0, _, current_batch, all_successful => (all_successful, current_batch, 0)
  | fuel + 1, retry_count, current_batch, all_successful =>
    if current_batch.isEmpty then (all_successful, current_batch, 0)
    else
      let sf := run_threadpool (ok retry_count) current_batch
      let rest := push_loop ok fuel (retry_count + 1) sf.2 (all_successful ++ sf.1)
      (rest.1, rest.2.1, rest.2.2 + 1)

/- ----------------------------------------------------------------- -/
/- Concrete sample data shared by witnesses. -/

/-- Count the occurrences of one operation in a trace. -/
def countOp (target : Op) : List Op → Nat
  | [] => 0
  | o :: rest => (if o = target then 1 else 0) + countOp target rest

/-- A concrete dataset instance used by witnesses. -/
def sampleInstance : Instance :=
  { instance_id := "repo-1001"
    instance_image_key := "sweb.eval.x86_64.repo-1001:latest" }

/-- A concrete test spec used by witnesses. -/
def sampleSpec : TestSpec :=
  { instance_id := "repo-1001"
    instance_image_key := "sweb.eval.x86_64.repo-1001:latest"
    eval_script := "run the tests" }

/-- A concrete environment whose run reaches the normal exit path. -/
def sampleEnv : RunEnv :=
  { link_exists := true
    report_exists := false
    existing_report := ("repo-1001", initialRecord)
    existing_report_text := "old report"
    build_fails := false
    generic_fail := false
    git_apply_exit := 0
    git_apply_output := ""
    patch_exit := 0
    patch_output := ""
    test_output := "collected 3 items"
    timed_out := false
    eval_sm := [("t1", TestStatus.PASSED)]
    found := true
    pred_report_text := "graded" }

/-- A concrete prediction with a non-empty patch. -/
def samplePred : Prediction :=
  { instance_id := "repo-1001", model_patch := some "diff --git a b", model_name_or_path := "gold" }

/-- An environment where both apply attempts fail, first output variant A. -/
def envBothFailA : RunEnv :=
  { sampleEnv with
    git_apply_exit := 1
    git_apply_output := "first output A"
    patch_exit := 1
    patch_output := "second output" }

/-- An environment where both apply attempts fail, first output variant B
(differs from variant A only in the first attempt's output). -/
def envBothFailB : RunEnv :=
  { envBothFailA with git_apply_output := "first output B" }

/-- An environment where only the strict apply attempt fails. -/
def envStrictFail : RunEnv :=
  { sampleEnv with
    git_apply_exit := 1
    git_apply_output := "first output" }

/-- An environment whose eval-script run times out. -/
def envTimedOut : RunEnv :=
  { sampleEnv with timed_out := true }

/-- The sample environment with the report file already present. -/
def envReported : RunEnv :=
  { sampleEnv with report_exists := true }

/-- A concrete live Docker inventory holding one leaked image and one
container whose name contains the run id run1. -/
def sampleClient : ClientState :=
  { images := ["sweb.eval.x86_64.repo-1001:latest"]
    container_names := ["sweb.run1.repo-1001"] }

/- ----------------------------------------------------------------- -/
/- Helper lemmas. -/

theorem countOp_append (t : Op) (a b : List Op) :
    countOp t (a ++ b) = countOp t a + countOp t b := by
  induction a with
  | nil => simp [countOp]
  | cons o rest ih => simp [countOp, ih, Nat.add_assoc]

/- ----------------------------------------------------------------- -/
/- Claims. -/

/-- C1: for every prediction with a non-null patch whose evaluation log is
found, the validation grading sets resolved exactly when the parsed
mapping contains zero FAILED entries and at least one PASSED entry; in
particular the empty mapping gives resolved false. -/
theorem validation_resolved_iff_no_fail_and_some_pass
    (prediction : Prediction) (eval_sm : List (String × TestStatus))
    (include_tests_status : Bool) (s : String)
    (hp : prediction.model_patch = some s) :
    (((get_validation_report prediction eval_sm true include_tests_status).2.resolved = true) ↔
      ((∀ kv ∈ eval_sm, kv.2 ≠ TestStatus.FAILED) ∧ ∃ kv ∈ eval_sm, kv.2 = TestStatus.PASSED))
    ∧ (get_validation_report prediction ([] : List (String × TestStatus)) true
        include_tests_status).2.resolved = false := by
  have main : ∀ sm : List (String × TestStatus),
      ((get_validation_report prediction sm true include_tests_status).2.resolved = true) ↔
      ((∀ kv ∈ sm, kv.2 ≠ TestStatus.FAILED) ∧ ∃ kv ∈ sm, kv.2 = TestStatus.PASSED) := by
    intro sm
    unfold get_validation_report
    rw [hp]
    cases include_tests_status <;>
      simp [List.length_eq_zero, List.filter_eq_nil_iff, List.length_pos_iff_exists_mem,
        List.mem_filter, apply_ite ValidationRecord.resolved, initialRecord]
  refine ⟨main eval_sm, ?_⟩
  have h0 := main []
  simp at h0
  simp [h0]

/-- C9: the validation grading record keeps patch_is_None false on every
input; for a null patch the returned record carries the extra key none
set to true while patch_exists, patch_successfully_applied and resolved
all stay false. -/
theorem patch_is_None_never_true
    (prediction : Prediction) (eval_sm : List (String × TestStatus))
    (found include_tests_status : Bool) :
    ((get_validation_report prediction eval_sm found include_tests_status).2.patch_is_None
      = false)
    ∧ (prediction.model_patch = Option.none →
        ((get_validation_report prediction eval_sm found include_tests_status).2.none_key
            = some true
        ∧ (get_validation_report prediction eval_sm found include_tests_status).2.patch_exists
            = false
        ∧ (get_validation_report prediction eval_sm found
            include_tests_status).2.patch_successfully_applied = false
        ∧ (get_validation_report prediction eval_sm found include_tests_status).2.resolved
            = false)) := by
  cases hp : prediction.model_patch <;>
    cases found <;> cases include_tests_status <;>
      simp [get_validation_report, hp, initialRecord,
        apply_ite ValidationRecord.patch_is_None, apply_ite ValidationRecord.none_key,
        apply_ite ValidationRecord.patch_exists, apply_ite ValidationRecord.resolved,
        apply_ite ValidationRecord.patch_successfully_applied]

/-- C9 witness: at the concrete null-patch prediction the record keeps
patch_is_None false and gains the key none set to true. -/
theorem patch_is_None_never_true_witness :
    ((get_validation_report ⟨"repo-1001", Option.none, "gold"⟩ [] true true).2.patch_is_None
      = false)
    ∧ ((get_validation_report ⟨"repo-1001", Option.none, "gold"⟩ [] true true).2.none_key
      = some true) :=
  ⟨(patch_is_None_never_true ⟨"repo-1001", Option.none, "gold"⟩ [] true true).1,
   ((patch_is_None_never_true ⟨"repo-1001", Option.none, "gold"⟩ [] true true).2 rfl).1⟩

/-- C1 witness: a mapping with one PASSED test and no FAILED test is
resolved. -/
theorem validation_resolved_iff_witness :
    (get_validation_report ⟨"repo-1001", some "p", "gold"⟩ [("t1", TestStatus.PASSED)]
      true true).2.resolved = true :=
  ((validation_resolved_iff_no_fail_and_some_pass ⟨"repo-1001", some "p", "gold"⟩
    [("t1", TestStatus.PASSED)] true "p" rfl).1).mpr (by decide)

/-- C2: for a job whose report.json already exists, run_instance returns
the parsed contents of that file and performs no container operation
(no build, start, exec, copy, cleanup, push or image removal), in both
the validation and the evaluation runner. -/
theorem existing_report_short_circuits
    (test_spec : TestSpec) (pred : Prediction) (rm_image push_flag : Bool)
    (timeout : Nat) (env : RunEnv) (h : env.report_exists = true) :
    ((RunValidation.run_instance test_spec pred rm_image push_flag timeout env).ret =
        some (test_spec.instance_id, env.existing_report))
    ∧ ((RunValidation.run_instance test_spec pred rm_image push_flag timeout env).ops.filter
        isContainerOp = [])
    ∧ ((RunEvaluation.run_instance test_spec pred rm_image env).ret =
        some (test_spec.instance_id, env.existing_report_text))
    ∧ ((RunEvaluation.run_instance test_spec pred rm_image env).ops.filter
        isContainerOp = []) := by
  unfold RunValidation.run_instance RunEvaluation.run_instance
  cases hl : env.link_exists <;> simp [h, hl, isContainerOp]

/-- C2 witness: with the sample environment marked as already reported,
the validation runner returns the existing report. -/
theorem existing_report_short_circuits_witness :
    (RunValidation.run_instance sampleSpec samplePred false false 60 envReported).ret =
      some (sampleSpec.instance_id, envReported.existing_report) :=
  (existing_report_short_circuits sampleSpec samplePred false false 60
    envReported rfl).1

/-- C3: for a job that proceeds past the existing-report check, the
container cleanup and the logger close each occur exactly once in the
trace, on every exit path (normal, build failure, patch failure, timeout,
generic exception), in both runners. -/
theorem cleanup_and_close_logger_exactly_once
    (test_spec : TestSpec) (pred : Prediction) (rm_image push_flag : Bool)
    (timeout : Nat) (env : RunEnv) (h : env.report_exists = false) :
    (countOp Op.cleanupContainer
      (RunValidation.run_instance test_spec pred rm_image push_flag timeout env).ops = 1)
    ∧ (countOp Op.closeLogger
      (RunValidation.run_instance test_spec pred rm_image push_flag timeout env).ops = 1)
    ∧ (countOp Op.cleanupContainer
      (RunEvaluation.run_instance test_spec pred rm_image env).ops = 1)
    ∧ (countOp Op.closeLogger
      (RunEvaluation.run_instance test_spec pred rm_image env).ops = 1) := by
  unfold RunValidation.run_instance RunEvaluation.run_instance
  unfold RunValidation.apply_phase RunValidation.eval_phase
  cases hl : env.link_exists <;>
    cases hb : env.build_fails <;>
      cases hg : env.generic_fail <;>
        cases hp : pred.model_patch <;>
          cases ht : env.timed_out <;>
            by_cases ha : env.git_apply_exit = 0 <;>
              by_cases hpe : env.patch_exit = 0 <;>
                simp [h, hl, hb, hg, hp, ht, ha, hpe, countOp_append, countOp,
                  apply_ite (countOp Op.cleanupContainer),
                  apply_ite (countOp Op.closeLogger), ite_self]

/-- C3 witness: the normal-path sample run performs exactly one cleanup
and one logger close. -/
theorem cleanup_and_close_logger_exactly_once_witness :
    countOp Op.cleanupContainer
      (RunValidation.run_instance sampleSpec samplePred true true 60 sampleEnv).ops = 1 :=
  (cleanup_and_close_logger_exactly_once sampleSpec samplePred true true 60
    sampleEnv rfl).1

/-- Helper: whenever no report exists, the validation runner builds a
container, whatever the prediction contains. -/
theorem buildContainer_mem_of_no_report
    (test_spec : TestSpec) (pred : Prediction) (rm_image push_flag : Bool)
    (timeout : Nat) (env : RunEnv) (h : env.report_exists = false) :
    Op.buildContainer ∈
      (RunValidation.run_instance test_spec pred rm_image push_flag timeout env).ops := by
  unfold RunValidation.run_instance
  cases hb : env.build_fails <;>
    cases hg : env.generic_fail <;>
      cases hap : (RunValidation.apply_phase pred env).2 <;>
        simp [h, hb, hg, hap]

/-- C6 counterexample: a prediction whose patch is the empty string gets
patch_exists true from the validation grader, and the validation runner
still builds a container for it; the claim says patch_exists false and
no container built. -/
theorem empty_patch_counterexample :
    ((get_validation_report ⟨"repo-1001", some "", "empty"⟩ [] false false).2.patch_exists
      = true)
    ∧ Op.buildContainer ∈ (RunValidation.run_instance sampleSpec
        ⟨"repo-1001", some "", "empty"⟩ false false 60 sampleEnv).ops := by
  exact ⟨rfl, by decide⟩

/-- C6 (amended): a null patch short-circuits the validation grading to
patch_exists false and resolved false; an empty-string patch however is
treated as an existing patch (patch_exists true); and the validation
runner builds a container whenever no report exists, regardless of the
patch text. -/
theorem empty_and_null_patch_handling
    (pred : Prediction) (eval_sm : List (String × TestStatus))
    (found include_tests_status : Bool) (test_spec : TestSpec)
    (rm_image push_flag : Bool) (timeout : Nat) (env : RunEnv)
    (hnull : pred.model_patch = Option.none) (hrep : env.report_exists = false) :
    ((get_validation_report pred eval_sm found include_tests_status).2.patch_exists = false)
    ∧ ((get_validation_report pred eval_sm found include_tests_status).2.resolved = false)
    ∧ (∀ iid name : String,
        (get_validation_report ⟨iid, some "", name⟩ eval_sm found
          include_tests_status).2.patch_exists = true)
    ∧ Op.buildContainer ∈
        (RunValidation.run_instance test_spec pred rm_image push_flag timeout env).ops := by
  refine ⟨?_, ?_, ?_, buildContainer_mem_of_no_report _ _ _ _ _ _ hrep⟩
  · exact ((patch_is_None_never_true pred eval_sm found include_tests_status).2 hnull).2.1
  · exact ((patch_is_None_never_true pred eval_sm found include_tests_status).2
      hnull).2.2.2
  · intro iid name
    cases found <;> cases include_tests_status <;>
      simp [get_validation_report, initialRecord,
        apply_ite ValidationRecord.patch_exists]

/-- C6 witness: null patch gives patch_exists false while the container
is still built. -/
theorem empty_and_null_patch_handling_witness :
    ((get_validation_report ⟨"repo-1001", Option.none, "gold"⟩ [] true true).2.patch_exists
      = false)
    ∧ Op.buildContainer ∈ (RunValidation.run_instance sampleSpec
        ⟨"repo-1001", Option.none, "gold"⟩ false false 60 sampleEnv).ops :=
  ⟨(empty_and_null_patch_handling ⟨"repo-1001", Option.none, "gold"⟩ [] true true
      sampleSpec false false 60 sampleEnv rfl rfl).1,
   (empty_and_null_patch_handling ⟨"repo-1001", Option.none, "gold"⟩ [] true true
      sampleSpec false false 60 sampleEnv rfl rfl).2.2.2⟩

/-- C4 counterexample: in the validation runner with both apply attempts
failing, the raised patch-apply error is identical for two runs whose
first-attempt outputs differ, and equals APPLY_PATCH_FAIL plus the second
output alone — so the error does not carry the combined output of both
attempts.  In the evaluation runner the strict apply fails and the fuzzy
fallback command is never executed at all. -/
theorem patch_apply_error_output_counterexample :
    ((RunValidation.run_instance sampleSpec samplePred false false 60 envBothFailA).error =
      (RunValidation.run_instance sampleSpec samplePred false false 60 envBothFailB).error)
    ∧ ((RunValidation.run_instance sampleSpec samplePred false false 60 envBothFailA).error =
        some (applyFailMessage "second output"))
    ∧ ((envBothFailA.git_apply_output = "first output A")
        ∧ (envBothFailB.git_apply_output = "first output B"))
    ∧ (Op.execRun patchFuzzCmd ∉
        (RunEvaluation.run_instance sampleSpec samplePred false envStrictFail).ops) := by
  refine ⟨rfl, rfl, ⟨rfl, rfl⟩, by decide⟩

/-- C4 (amended): in the validation runner the strict git apply runs
first; when it exits non-zero the fuzzy patch fallback runs (and never
otherwise); the patch-apply error is raised only when both exit non-zero
and carries APPLY_PATCH_FAIL plus the output of the second, fallback
attempt.  The evaluation runner attempts only the strict apply and on a
non-zero exit fails with that attempt's output, never running the
fallback. -/
theorem patch_apply_fallback_and_error_output
    (pred : Prediction) (env : RunEnv) (test_spec : TestSpec) (rm_image : Bool)
    (p : String) (hrep : env.report_exists = false) (hb : env.build_fails = false)
    (hpatch : pred.model_patch = some p) :
    (env.git_apply_exit = 0 →
      (RunValidation.apply_phase pred env).2 = Option.none ∧
      Op.execRun patchFuzzCmd ∉ (RunValidation.apply_phase pred env).1)
    ∧ (env.git_apply_exit ≠ 0 →
        Op.execRun patchFuzzCmd ∈ (RunValidation.apply_phase pred env).1
        ∧ (env.patch_exit = 0 → (RunValidation.apply_phase pred env).2 = Option.none)
        ∧ (env.patch_exit ≠ 0 →
            (RunValidation.apply_phase pred env).2 =
              some (applyFailMessage env.patch_output)))
    ∧ (env.git_apply_exit ≠ 0 →
        (RunEvaluation.run_instance test_spec pred rm_image env).raised =
          some (applyFailMessage env.git_apply_output)
        ∧ Op.execRun patchFuzzCmd ∉
            (RunEvaluation.run_instance test_spec pred rm_image env).ops) := by
  refine ⟨?_, ?_, ?_⟩
  · intro ha
    simp [RunValidation.apply_phase, ha, gitApplyCmdV, patchFuzzCmd]
  · intro ha
    by_cases hpe : env.patch_exit = 0 <;>
      simp [RunValidation.apply_phase, ha, hpe, gitApplyCmdV, patchFuzzCmd]
  · intro ha
    unfold RunEvaluation.run_instance
    cases hl : env.link_exists <;>
      cases hrm : rm_image <;>
        simp [hrep, hb, hpatch, ha, hl, gitApplyCmdE, patchFuzzCmd, gitApplyCmdV]

/-- C4 witness: concrete failing strict apply followed by failing
fallback yields the fallback-output error in the validation phases, and
the evaluation runner raises the strict-apply error without running the
fallback. -/
theorem patch_apply_fallback_and_error_output_witness :
    ((RunValidation.apply_phase samplePred envBothFailA).2 =
      some (applyFailMessage "second output"))
    ∧ ((RunEvaluation.run_instance sampleSpec samplePred false envStrictFail).raised =
      some (applyFailMessage "first output")) :=
  ⟨((patch_apply_fallback_and_error_output samplePred envBothFailA
      sampleSpec false "diff --git a b" rfl rfl rfl).2.1 (by decide)).2.2 (by decide),
   ((patch_apply_fallback_and_error_output samplePred envStrictFail
      sampleSpec false "diff --git a b" rfl rfl rfl).2.2 (by decide)).1⟩

/-- Helper: an instance of the dataset whose report file is missing
survives get_dataset_from_preds, so a later invocation re-runs it. -/
theorem mem_get_dataset_of_no_report
    (dataset ds2 : List Instance) (preds : List (String × Prediction))
    (fs : String → Bool) (inst : Instance)
    (hok : get_dataset_from_preds dataset [] preds fs true = Except.ok ds2)
    (hmem : inst ∈ dataset) (hfs : fs inst.instance_id = false) :
    inst ∈ ds2 := by
  unfold get_dataset_from_preds at hok
  simp only [List.isEmpty_nil, Bool.not_true, Bool.false_and, Bool.false_eq_true,
    if_false, ite_false] at hok
  by_cases hc : (preds.map Prod.fst).any
      (fun i => !((dataset.map Instance.instance_id).contains i)) = true
  · rw [if_pos hc] at hok
    exact absurd hok (by simp)
  · rw [if_neg hc] at hok
    set completed := (dataset.filter (fun i =>
      (preds.map Prod.fst).contains i.instance_id && fs i.instance_id)).map
        Instance.instance_id with hcomp
    have hnc : inst.instance_id ∉ completed := by
      intro hmemc
      rw [hcomp] at hmemc
      rcases List.mem_map.mp hmemc with ⟨j, hj, hjid⟩
      rcases List.mem_filter.mp hj with ⟨_, hjprop⟩
      rw [hjid, hfs] at hjprop
      simp at hjprop
    have hnc2 : completed.contains inst.instance_id = false :=
      Bool.eq_false_iff.mpr (fun hc2 => hnc (List.elem_iff.mp hc2))
    by_cases he : completed.isEmpty = true
    · rw [if_neg (by simp [he])] at hok
      rw [← Except.ok.inj hok]
      exact hmem
    · have he2 : completed.isEmpty = false := Bool.eq_false_iff.mpr he
      rw [if_pos (by simp [he2])] at hok
      rw [← Except.ok.inj hok]
      exact List.mem_filter.mpr ⟨hmem, by simpa using hnc⟩

/-- C5: when the eval script times out, the validation runner writes the
partial output with the timeout line appended to the test-output file,
raises the timeout error so that nothing is returned and no report is
written, and a later get_dataset_from_preds call for the same run keeps
the instance, so it is re-run. -/
theorem timeout_preserves_output_no_report_and_reruns
    (test_spec : TestSpec) (pred : Prediction) (rm_image push_flag : Bool)
    (timeout : Nat) (env : RunEnv)
    (dataset ds2 : List Instance) (preds : List (String × Prediction))
    (fs : String → Bool) (inst : Instance)
    (hrep : env.report_exists = false) (hb : env.build_fails = false)
    (hg : env.generic_fail = false)
    (hap : (RunValidation.apply_phase pred env).2 = Option.none)
    (ht : env.timed_out = true)
    (hok : get_dataset_from_preds dataset [] preds fs true = Except.ok ds2)
    (hmem : inst ∈ dataset) (hfs : fs inst.instance_id = false) :
    (Op.writeFile "test_output.txt" (env.test_output ++ timeoutFileSuffix timeout)
        ∈ (RunValidation.run_instance test_spec pred rm_image push_flag timeout env).ops)
    ∧ (∀ rep, Op.writeReport rep ∉
        (RunValidation.run_instance test_spec pred rm_image push_flag timeout env).ops)
    ∧ ((RunValidation.run_instance test_spec pred rm_image push_flag timeout env).ret =
        Option.none)
    ∧ ((RunValidation.run_instance test_spec pred rm_image push_flag timeout env).error =
        some (timeoutErrorMessage timeout))
    ∧ inst ∈ ds2 := by
  have key : ∃ apOps : List Op,
      RunValidation.apply_phase pred env = (apOps, Option.none)
      ∧ (∀ rep, Op.writeReport rep ∉ apOps) := by
    by_cases ha : env.git_apply_exit = 0
    · refine ⟨[Op.writeFile "patch.diff" (pred.model_patch.getD ""),
        Op.copyToContainer "/tmp/patch.diff", Op.execRun gitApplyCmdV], ?_, ?_⟩
      · simp [RunValidation.apply_phase, ha]
      · intro rep
        simp
    · by_cases hpe : env.patch_exit = 0
      · refine ⟨[Op.writeFile "patch.diff" (pred.model_patch.getD ""),
          Op.copyToContainer "/tmp/patch.diff", Op.execRun gitApplyCmdV,
          Op.execRun patchFuzzCmd], ?_, ?_⟩
        · simp [RunValidation.apply_phase, ha, hpe]
        · intro rep
          simp
      · exact absurd hap (by simp [RunValidation.apply_phase, ha, hpe])
  rcases key with ⟨apOps, hkey, hno⟩
  refine ⟨?_, ?_, ?_, ?_,
    mem_get_dataset_of_no_report dataset ds2 preds fs inst hok hmem hfs⟩
  · unfold RunValidation.run_instance RunValidation.eval_phase
    cases hl : env.link_exists <;>
      simp [hrep, hb, hg, ht, hkey]
  · intro rep
    unfold RunValidation.run_instance RunValidation.eval_phase
    cases hl : env.link_exists <;>
      simp [hrep, hb, hg, ht, hkey, hno rep]
  · unfold RunValidation.run_instance RunValidation.eval_phase
    simp [hrep, hb, hg, ht, hkey]
  · unfold RunValidation.run_instance RunValidation.eval_phase
    simp [hrep, hb, hg, ht, hkey]

/-- C5 witness: the concrete timed-out run fails with the timeout error
and the instance (whose report file is missing) is kept by the next
dataset filtering. -/
theorem timeout_preserves_output_no_report_and_reruns_witness :
    ((RunValidation.run_instance sampleSpec samplePred false false 60 envTimedOut).error =
      some (timeoutErrorMessage 60))
    ∧ sampleInstance ∈ [sampleInstance] :=
  ⟨(timeout_preserves_output_no_report_and_reruns sampleSpec samplePred false false 60
      envTimedOut [sampleInstance] [sampleInstance] [("repo-1001", samplePred)]
      (fun _ => false) sampleInstance rfl rfl rfl rfl rfl rfl (by decide)
      rfl).2.2.2.1,
   (timeout_preserves_output_no_report_and_reruns sampleSpec samplePred false false 60
      envTimedOut [sampleInstance] [sampleInstance] [("repo-1001", samplePred)]
      (fun _ => false) sampleInstance rfl rfl rfl rfl rfl rfl (by decide)
      rfl).2.2.2.2⟩

/-- C7 counterexample: one always-failing payload.  From round one on a
retry round yields no shrinkage of the failed subset, yet the loop
observed for ten rounds executes all ten, with the failed
subset unchanged and nonempty — the code terminates only on an empty
failed subset, never on lack of shrinkage. -/
theorem push_retry_no_progress_counterexample :
    push_loop (fun _ _ => (false : Bool)) 10 1 ["instance-a"] ([] : List String) =
      ([], ["instance-a"], 10) := by decide

/-- C7 (amended): each retry round re-attempts exactly the payloads that
failed in the previous round, and the loop terminates only when the
failed subset is empty: an empty batch returns immediately, while a
batch that keeps failing (no shrinkage) is retried for as long as the
loop runs — every unit of fuel is consumed by another identical round. -/
theorem push_retry_loop_behavior {α : Type} (ok : Nat → α → Bool)
    (fuel round : Nat) (batch successes : List α) (hb : batch ≠ []) :
    (push_loop ok (fuel + 1) round batch successes =
      ((push_loop ok fuel (round + 1) (batch.filter (fun p => !(ok round p)))
          (successes ++ batch.filter (ok round))).1,
       (push_loop ok fuel (round + 1) (batch.filter (fun p => !(ok round p)))
          (successes ++ batch.filter (ok round))).2.1,
       (push_loop ok fuel (round + 1) (batch.filter (fun p => !(ok round p)))
          (successes ++ batch.filter (ok round))).2.2 + 1))
    ∧ (∀ (f r : Nat) (s : List α), push_loop ok f r [] s = (s, [], 0))
    ∧ (∀ f r : Nat,
        push_loop (fun _ _ => false) f r batch successes = (successes, batch, f)) := by
  have hne : batch.isEmpty = false := by
    cases batch with
    | nil => exact absurd rfl hb
    | cons a l => rfl
  refine ⟨?_, ?_, ?_⟩
  · simp [push_loop, hne, run_threadpool]
  · intro f r s
    cases f <;> simp [push_loop]
  · intro f
    induction f with
    | zero => intro r; rfl
    | succ n ih =>
      intro r
      simp [push_loop, hne, run_threadpool, List.filter_true, List.filter_false, ih (r + 1)]

/-- C7 witness: with an always-failing single payload and fuel five, the
loop runs five rounds and still holds the same failed subset. -/
theorem push_retry_loop_behavior_witness :
    push_loop (fun _ _ => (false : Bool)) 5 1 ["a"] ([] : List String) = ([], ["a"], 5) :=
  ((push_retry_loop_behavior (fun _ _ => false) 0 0 ["a"] [] (by decide)).2.2) 5 1

/-- C8: reporting.py line 123 guards the three leaked-resource keys with
the condition (if not client), the opposite of its own docstring; with a
live client supplied and a leaked matching container and image present,
the emitted JSON has no unstopped_containers and no unremoved_images key,
while without a client the keys are present but necessarily empty. -/
theorem run_report_omits_leak_keys_with_client :
    ((make_run_report [("repo-1001", samplePred)] [sampleInstance] "run1"
        (fun _ => some true) (some sampleClient)).lookup "unstopped_containers" =
      Option.none)
    ∧ ((make_run_report [("repo-1001", samplePred)] [sampleInstance] "run1"
        (fun _ => some true) (some sampleClient)).lookup "unremoved_images" =
      Option.none)
    ∧ ((make_run_report [("repo-1001", samplePred)] [sampleInstance] "run1"
        (fun _ => some true) Option.none).lookup "unstopped_containers" =
      some (JVal.arr []))
    ∧ ((make_run_report [("repo-1001", samplePred)] [sampleInstance] "run1"
        (fun _ => some true) Option.none).lookup "unremoved_images" =
      some (JVal.arr [])) := by
  refine ⟨rfl, rfl, rfl, rfl⟩

/-- C10: when the local image exists and the push succeeds, push_image
removes both the namespaced copy and the original image from the local
store; when the push raises, the original image stays in the local store
for the next retry round. -/
theorem push_image_removes_local_images (pushOk : String → Bool)
    (st : DockerState) (iid ns tag : String)
    (h : image_name_for iid tag ∈ st.images) :
    (pushOk (namespaced_name ns iid tag) = true →
      ((push_image pushOk st iid ns tag).2 = true
      ∧ image_name_for iid tag ∉ (push_image pushOk st iid ns tag).1.images
      ∧ namespaced_name ns iid tag ∉ (push_image pushOk st iid ns tag).1.images))
    ∧ (pushOk (namespaced_name ns iid tag) = false →
      ((push_image pushOk st iid ns tag).2 = false
      ∧ image_name_for iid tag ∈ (push_image pushOk st iid ns tag).1.images)) := by
  have hc : st.images.contains (image_name_for iid tag) = true := List.elem_iff.mpr h
  constructor
  · intro hok
    refine ⟨?_, ?_, ?_⟩ <;>
      simp [push_image, hc, hok, h, removeImageName, List.mem_filter]
  · intro hok
    refine ⟨?_, ?_⟩ <;>
      simp [push_image, hc, hok, List.mem_append, h]

/-- C10 witness: with one local image and a succeeding push, the image is
gone from the local store afterwards. -/
theorem push_image_removes_local_images_witness :
    image_name_for "repo-1001" "latest" ∉
      (push_image (fun _ => true) ⟨[image_name_for "repo-1001" "latest"]⟩
        "repo-1001" "user" "latest").1.images :=
  ((push_image_removes_local_images (fun _ => true)
    ⟨[image_name_for "repo-1001" "latest"]⟩ "repo-1001" "user" "latest"
    (by decide)).1 rfl).2.1

end SWEBench
